import Mathlib

/-!
Shallow embedding of the parrotbebop ground controller (main.go, drone.go):
ARNetworkAL framing, the per-buffer sequencer (udpPacketCreator), the frame
dispatcher replies (pong/ack), the command encoder, the PCMD scheduler tick,
discovery response handling and the waypoint buffer.

Bytes are modelled as Nat (values kept below 256 by explicit mod where Go
converts to uint8), byte buffers as List Nat, Go maps with zero-defaulting
lookup as total functions, and f64 GPS coordinates as rationals (every
comparison the code performs is against an exactly representable literal).
Go panics (index/slice out of range) are modelled as Option.none.
-/

namespace Parrotbebop

/-- An ARNetworkAL frame as decoded from the wire (struct protocolARNetworkAL
in main.go); Go int fields hold byte / u32 values, so Nat is used. -/
structure protocolARNetworkAL where
  dataType : Nat
  targetBufferID : Nat
  sequenceNR : Nat
  size : Nat
  dataARNetwork : List Nat
deriving DecidableEq

/-- A raw UDP packet (struct networkUDPPacket in main.go): logical byte count
read from the socket, the backing buffer, and the frame cursor. -/
structure networkUDPPacket where
  size : Nat
  data : List Nat
  framePos : Nat
deriving DecidableEq

/-- The per-buffer sequence counter table (struct udpPacketCreator in
main.go): a Go map from buffer id to uint8, absent keys reading as 0,
modelled as a total function. -/
structure udpPacketCreator where
  sequenceNR : Nat → Nat

/-- newUdpPacketCreator from main.go: an empty map, every counter 0. -/
def newUdpPacketCreator : udpPacketCreator := ⟨fun _ => 0⟩

/-- The Go statement sequenceNR map bumped at one key with uint8 wrap-around. -/
def bumpSeq (u : udpPacketCreator) (k : Nat) : udpPacketCreator :=
  ⟨fun b => if b = k then (u.sequenceNR k + 1) % 256 else u.sequenceNR b⟩

/-- encodePong from main.go: increments the counter of the ping buffer, emits
dataType 2, the same buffer, the freshly incremented counter value, the
hard-coded size field 8, the received payload verbatim, then increments the
counter a second time. -/
def encodePong (u : udpPacketCreator) (data : protocolARNetworkAL) :
    udpPacketCreator × networkUDPPacket :=
  let u1 := bumpSeq u data.targetBufferID
  let pdataType := 2
  let ptargetBufferID := data.targetBufferID % 256
  let psequenceNR := u1.sequenceNR ptargetBufferID
  let psize := [8, 0, 0, 0]
  let pdata := data.dataARNetwork
  let u2 := bumpSeq u1 ptargetBufferID
  (u2, { size := 0, data := [pdataType, ptargetBufferID, psequenceNR] ++ psize ++ pdata,
         framePos := 0 })

/-- encodeAck from main.go: dataType 1, buffer uint8(targetBufferID+128), the
frame sequence-number field and the one payload byte both set to the received
sequence number, size field 8; the ack buffer counter is incremented (but its
value is not used in the frame). -/
def encodeAck (u : udpPacketCreator) (targetBufferID : Nat) (sequenceNR : Nat) :
    udpPacketCreator × networkUDPPacket :=
  let pdataType := 1
  let ptargetBufferID := (targetBufferID + 128) % 256
  let psequenceNR := sequenceNR
  let psize := [8, 0, 0, 0]
  let pdata := sequenceNR
  let u1 := bumpSeq u ptargetBufferID
  (u1, { size := 0, data := [pdataType, ptargetBufferID, psequenceNR] ++ psize ++ [pdata],
         framePos := 0 })

/-- A command descriptor (struct Command of the generated commandStructure.go,
used by main.go): project, class and command ids. -/
structure Command where
  Project : Nat
  Class : Nat
  Cmd : Nat
deriving DecidableEq

/-- Modelled from the spec: convertCMDToBytes reflects over the Command struct
whose field types live in the generated commandStructure.go, absent from src;
spec section 4.A fixes the layout project(u8) then class(u8) then
command(u16 little-endian). -/
def convertCMDToBytes (c : Command) : List Nat :=
  [c.Project % 256, c.Class % 256, c.Cmd % 256, c.Cmd / 256 % 256]

/-- The 4 little-endian bytes binary.Write produces for a uint32. -/
def le32 (n : Nat) : List Nat :=
  [n % 256, n / 256 % 256, n / 65536 % 256, n / 16777216 % 256]

/-- encodeCmd from main.go: hard-coded buffer 10 and dataType 2 for every
command; increments the buffer 10 counter and emits the incremented value;
size field = len(command bytes) + len(argument bytes) + 7 as u32 LE. The
generated Encoder argument is modelled as the byte list its Encode returns. -/
def encodeCmd (u : udpPacketCreator) (c : Command) (adata : List Nat) :
    udpPacketCreator × networkUDPPacket :=
  let pdataType := 2
  let ptargetBufferID := 10
  let u1 := bumpSeq u 10
  let psequenceNR := u1.sequenceNR 10
  let pdata := convertCMDToBytes c
  let psize := le32 (pdata.length + adata.length + 7)
  (u1, { size := 0, data := [pdataType, ptargetBufferID, psequenceNR] ++ psize ++ pdata ++ adata,
         framePos := 0 })

/-- Modelled from the spec: ConvLittleEndianSliceToNumeric lives in the
generated file absent from src; spec section 3 fixes the size field as u32
little-endian. -/
def ConvLittleEndianSliceToNumeric (l : List Nat) : Nat :=
  l.foldr (fun b acc => b % 256 + 256 * acc) 0

/-- A Go slice expression l[a:b]: defined when a ≤ b ≤ len(l), otherwise a
panic (none). -/
def goSlice (l : List Nat) (a b : Nat) : Option (List Nat) :=
  if a ≤ b ∧ b ≤ l.length then some ((l.drop a).take (b - a)) else none

/-- networkUDPPacket.decode from main.go: reads the three header bytes and the
LE size field at framePos, slices the payload data[framePos+7 : framePos+size]
(no truncation checks: an impossible slice is a Go panic, modelled none), and
returns the frame together with the advanced packet and an end-of-packet flag
(io.EOF) that is set unless a further 7-byte header fits below packet.size. -/
def networkUDPPacket.decode (packet : networkUDPPacket) :
    Option (protocolARNetworkAL × networkUDPPacket × Bool) := do
  let d0 ← packet.data.get? packet.framePos
  let d1 ← packet.data.get? (packet.framePos + 1)
  let d2 ← packet.data.get? (packet.framePos + 2)
  let sizeBytes ← goSlice packet.data (packet.framePos + 3) (packet.framePos + 7)
  let fsize := ConvLittleEndianSliceToNumeric sizeBytes
  let payload ← goSlice packet.data (packet.framePos + 7) (packet.framePos + fsize)
  let frame : protocolARNetworkAL :=
    { dataType := d0, targetBufferID := d1, sequenceNR := d2, size := fsize,
      dataARNetwork := payload }
  if packet.framePos + fsize + 7 ≤ packet.size then
    pure (frame, { packet with framePos := packet.framePos + fsize }, false)
  else
    pure (frame, packet, true)

/-- The per-frame reply logic of handleReadPackages in main.go: buffers 0 and
1 get a pong and are not interpreted further (continue); otherwise dataType 4
gets an ack and the frame goes on to command decoding; otherwise nothing is
sent. Returns the new creator state, the packets sent on chSendingUDPPacket
for this frame, and whether command decoding is reached. -/
def dispatchFrame (u : udpPacketCreator) (f : protocolARNetworkAL) :
    udpPacketCreator × List networkUDPPacket × Bool :=
  if f.targetBufferID = 0 ∨ f.targetBufferID = 1 then
    let r := encodePong u f
    (r.1, [r.2], false)
  else if f.dataType = 4 then
    let r := encodeAck u f.targetBufferID (f.sequenceNR % 256)
    (r.1, [r.2], true)
  else
    (u, [], true)

/-- Modelled from the spec: the PilotingTakeOff command id of the generated
commandStructure.go, absent from src; spec scenario S4 gives project 1,
class 0, command 0x0001. -/
def PilotingTakeOff : Command := ⟨1, 0, 1⟩

/-- The ActionTakeoff case of handleInputAction in main.go: the packet sent
directly on chSendingUDPPacket is encodeCmd(PilotingTakeOff, empty argument
struct); the generated Encode of the empty Ardrone3PilotingTakeOffArguments
yields no bytes (spec S4: no further arg bytes). -/
def actionTakeoffPacket (u : udpPacketCreator) : udpPacketCreator × networkUDPPacket :=
  encodeCmd u PilotingTakeOff []

/-- One tick of PcmdPacketScheduler in main.go: a non-blocking receive on the
buffered chPcmdPacketScheduler channel (a FIFO queue); if a packet is pending
the oldest one is forwarded to chSendingUDPPacket, otherwise nothing happens. -/
def PcmdPacketSchedulerTick (pending : List networkUDPPacket) :
    List networkUDPPacket × Option networkUDPPacket :=
  match pending with
  | [] => ([], none)
  | p :: rest => (rest, some p)

/-- The anonymous response struct Discover (main.go) unmarshals the discovery
reply into; Go int fields. -/
structure discoverData where
  Status : Int
  C2dPort : Int
  C2dUpdate : Int
  C2dUserPort : Int
  QosMode : Int
  Arstream2ServerStreamPort : Int
  Arstream2ServerControlPort : Int
deriving DecidableEq

/-- The zero value the response struct keeps when json.Unmarshal fails. -/
def zeroDiscoverData : discoverData := ⟨0, 0, 0, 0, 0, 0, 0⟩

/-- What Discover does after reading the response: either the process is
terminated (log.Fatal) or the method returns nil with portC2D set. -/
inductive discoverOutcome
  | fatalExit
  | ok (c2dPort : Int)
deriving DecidableEq

/-- The response handling of Discover in main.go, from the point the reply
bytes have been read: json.Unmarshal is modelled by its result (none = parse
error, which the code only logs before continuing with the zero-valued
struct); status ≠ 0 runs log.Fatal, otherwise portC2D is set from c2d_port
and nil is returned. -/
def DiscoverHandle (parsed : Option discoverData) : discoverOutcome :=
  let dd := parsed.getD zeroDiscoverData
  if dd.Status ≠ 0 then .fatalExit else .ok dd.C2dPort

/-- A GPS waypoint (struct gpsLatLonAlt in drone.go); the f64 fields are
modelled as rationals, exact for every comparison the code performs. -/
structure gpsLatLonAlt where
  latitude : ℚ
  longitude : ℚ
  altitude : ℚ
deriving DecidableEq

/-- pushWayPointNew from drone.go: append at the end of the buffer. -/
def pushWayPointNew (buf : List gpsLatLonAlt) (d : gpsLatLonAlt) : List gpsLatLonAlt :=
  buf ++ [d]

/-- pullWayPointNext from drone.go: io.EOF (error) on an empty buffer,
otherwise the first element is returned and removed. -/
def pullWayPointNext (buf : List gpsLatLonAlt) :
    Except Unit (gpsLatLonAlt × List gpsLatLonAlt) :=
  match buf with
  | [] => .error ()
  | v :: rest => .ok (v, rest)

/-- One iteration of startWayPointReceiver in drone.go: the received waypoint
is dropped when latitude > 91 or < -91, or when longitude > 181 or < -181,
and otherwise pushed onto the buffer; altitude is never inspected. -/
def startWayPointReceiverStep (buf : List gpsLatLonAlt) (wp : gpsLatLonAlt) :
    List gpsLatLonAlt :=
  if wp.latitude > 91 ∨ wp.latitude < -91 then buf
  else if wp.longitude > 181 ∨ wp.longitude < -181 then buf
  else pushWayPointNew buf wp

/-- The sequence-number bytes (frame byte index 2) emitted by n successive
encodeCmd calls with the same command and argument bytes. -/
def cmdSeqList (u : udpPacketCreator) (c : Command) (a : List Nat) : Nat → List (Option Nat)
  | 0 => []
  | Nat.succ n => (encodeCmd u c a).2.data.get? 2 :: cmdSeqList (encodeCmd u c a).1 c a n

/-- The sequence-number bytes emitted by n successive encodePong calls replying
to the same frame. -/
def pongSeqList (u : udpPacketCreator) (f : protocolARNetworkAL) : Nat → List (Option Nat)
  | 0 => []
  | Nat.succ n => (encodePong u f).2.data.get? 2 :: pongSeqList (encodePong u f).1 f n

/-- Helper: folding pushWayPointNew over a list appends it in order. -/
theorem foldl_pushWayPointNew (ws acc : List gpsLatLonAlt) :
    ws.foldl pushWayPointNew acc = acc ++ ws := by
  induction ws generalizing acc with
  | nil => simp
  | cons w ws ih => simp [pushWayPointNew, ih]

/-- Claim C1, counterexample: for the inbound DataWithAck frame with
targetBufferID 11 and sequenceNR 0x42 fed to a fresh sequencer, the emitted
ack frame carries 0x42 = 66 in its own sequence-number field, while the
sequencer value for ack buffer 139 is 0 before and 1 after the call, so the
field is not the sequencer's next sequence number. -/
theorem C1_counterexample :
    (dispatchFrame newUdpPacketCreator ⟨4, 11, 66, 11, [18, 52, 86, 120]⟩).2.1.map
        networkUDPPacket.data = [[1, 139, 66, 8, 0, 0, 0, 66]] ∧
    newUdpPacketCreator.sequenceNR 139 = 0 ∧
    (dispatchFrame newUdpPacketCreator ⟨4, 11, 66, 11, [18, 52, 86, 120]⟩).1.sequenceNR 139
      = 1 ∧
    (66 : Nat) ≠ 0 ∧ (66 : Nat) ≠ 1 := by decide

/-- Claim C1 (amended): for every inbound frame with dataType 4 whose
targetBufferID is not 0 or 1, the dispatcher emits exactly one ack frame of
total length 8 with dataType 1, targetBufferID (128 + incoming buffer) mod
256, size field u32 LE = 8, and with BOTH the frame sequence-number field and
the single payload byte equal to the incoming sequenceNR mod 256; the
sequencer counter of the ack buffer is incremented by one (wrapping) and no
other counter changes. -/
theorem C1_ack_reply (u : udpPacketCreator) (f : protocolARNetworkAL)
    (h0 : f.targetBufferID ≠ 0) (h1 : f.targetBufferID ≠ 1) (h4 : f.dataType = 4) :
    (dispatchFrame u f).2.1 =
      [{ size := 0,
         data := [1, (f.targetBufferID + 128) % 256, f.sequenceNR % 256, 8, 0, 0, 0,
                  f.sequenceNR % 256],
         framePos := 0 }] ∧
    (dispatchFrame u f).1.sequenceNR ((f.targetBufferID + 128) % 256) =
      (u.sequenceNR ((f.targetBufferID + 128) % 256) + 1) % 256 ∧
    (∀ b, b ≠ (f.targetBufferID + 128) % 256 →
      (dispatchFrame u f).1.sequenceNR b = u.sequenceNR b) := by
  unfold dispatchFrame
  rw [if_neg (by simp [h0, h1]), if_pos h4]
  refine ⟨by simp [encodeAck], by simp [encodeAck, bumpSeq], ?_⟩
  intro b hb
  simp [encodeAck, bumpSeq, hb]

/-- Claim C1 witness: the amended ack theorem applied to the concrete frame
(dataType 4, buffer 11, seq 0x42, payload 12 34 56 78). -/
theorem C1_ack_reply_witness :
    (11 : Nat) ≠ 0 ∧ (11 : Nat) ≠ 1 ∧ (4 : Nat) = 4 ∧
    (dispatchFrame newUdpPacketCreator ⟨4, 11, 66, 11, [18, 52, 86, 120]⟩).2.1 =
      [{ size := 0, data := [1, 139, 66, 8, 0, 0, 0, 66], framePos := 0 }] :=
  ⟨by decide, by decide, rfl,
    by
      have h := (C1_ack_reply newUdpPacketCreator ⟨4, 11, 66, 11, [18, 52, 86, 120]⟩
        (by decide) (by decide) rfl).1
      simpa using h⟩

/-- Claim C2, counterexample: a ping frame on buffer 0 with a 2-byte payload
fed to a fresh sequencer produces a pong whose size field is the hard-coded 8
and not 7 + 2 = 9, whose sequence-number field is 1 (the counter is
incremented before being read), and the buffer 0 counter ends at 2 (two
increments per pong). -/
theorem C2_counterexample :
    (dispatchFrame newUdpPacketCreator ⟨2, 0, 123, 9, [170, 187]⟩).2.1.map
        networkUDPPacket.data = [[2, 0, 1, 8, 0, 0, 0, 170, 187]] ∧
    ([170, 187] : List Nat).length = 2 ∧ (8 : Nat) ≠ 7 + 2 ∧
    newUdpPacketCreator.sequenceNR 0 = 0 ∧
    (dispatchFrame newUdpPacketCreator ⟨2, 0, 123, 9, [170, 187]⟩).1.sequenceNR 0 = 2 := by
  decide

/-- Claim C2 (amended): for every inbound frame with targetBufferID 0 or 1 the
dispatcher emits exactly one pong with dataType 2, the same buffer, the inner
payload copied byte-for-byte, a sequence-number field equal to the buffer
counter incremented once (wrapping), and a size field that is always the
hard-coded 8 (agreeing with 7 + payload length only for 1-byte payloads);
the buffer counter is incremented twice, and the frame is not further
interpreted as a command. -/
theorem C2_pong_reply (u : udpPacketCreator) (f : protocolARNetworkAL)
    (h : f.targetBufferID = 0 ∨ f.targetBufferID = 1) :
    (dispatchFrame u f).2.1 =
      [{ size := 0,
         data := [2, f.targetBufferID, (u.sequenceNR f.targetBufferID + 1) % 256, 8, 0, 0, 0]
                  ++ f.dataARNetwork,
         framePos := 0 }] ∧
    (dispatchFrame u f).2.2 = false ∧
    (dispatchFrame u f).1.sequenceNR f.targetBufferID =
      ((u.sequenceNR f.targetBufferID + 1) % 256 + 1) % 256 := by
  unfold dispatchFrame
  rw [if_pos h]
  rcases h with h | h <;>
    refine ⟨by simp [encodePong, bumpSeq, h], rfl, by simp [encodePong, bumpSeq, h]⟩

/-- Claim C2 witness: the amended pong theorem applied to the concrete ping
frame on buffer 0 with payload AA BB. -/
theorem C2_pong_reply_witness :
    ((0 : Nat) = 0 ∨ (0 : Nat) = 1) ∧
    (dispatchFrame newUdpPacketCreator ⟨2, 0, 123, 9, [170, 187]⟩).2.1 =
      [{ size := 0, data := [2, 0, 1, 8, 0, 0, 0, 170, 187], framePos := 0 }] :=
  ⟨Or.inl rfl,
    by
      have h := (C2_pong_reply newUdpPacketCreator ⟨2, 0, 123, 9, [170, 187]⟩ (Or.inl rfl)).1
      simpa using h⟩

/-- Claim C4: the decoder performs no truncation checks at all. A 3-byte
packet makes the size-field slice panic (none); a packet whose size field is
4 < 7 makes the Go payload slice data[7:4] panic; and a packet whose size
field 20 exceeds its logical size 8 is decoded without error, with payload
bytes taken from the buffer beyond the received datagram. The claimed
TruncatedHeader and TruncatedFrame errors do not exist in the code. -/
theorem C4_decode_unchecked :
    networkUDPPacket.decode ⟨3, [1, 2, 3], 0⟩ = none ∧
    networkUDPPacket.decode ⟨7, [4, 11, 66, 4, 0, 0, 0], 0⟩ = none ∧
    networkUDPPacket.decode
        ⟨8, [2, 127, 5, 20, 0, 0, 0, 9, 0, 0, 0, 0, 0, 0, 0, 0, 0, 0, 0, 0], 0⟩ =
      some (⟨2, 127, 5, 20, [9, 0, 0, 0, 0, 0, 0, 0, 0, 0, 0, 0, 0]⟩,
        ⟨8, [2, 127, 5, 20, 0, 0, 0, 9, 0, 0, 0, 0, 0, 0, 0, 0, 0, 0, 0, 0], 0⟩, true) := by
  decide

/-- Claim C5: the ActionTakeoff input action is encoded with the hard-coded
dataType 2 and targetBufferID 10 of encodeCmd, so the first two header bytes
are 0x02, 0x0A and not the claimed 0x04, 0x0B; the payload does begin with
project 1, class 0, command 0x0001 LE and the size field is 11. -/
theorem C5_takeoff_buffer :
    (actionTakeoffPacket newUdpPacketCreator).2.data = [2, 10, 1, 11, 0, 0, 0, 1, 0, 1, 0] ∧
    (actionTakeoffPacket newUdpPacketCreator).2.data.get? 0 = some 2 ∧
    (actionTakeoffPacket newUdpPacketCreator).2.data.get? 1 = some 10 ∧
    (2 : Nat) ≠ 4 ∧ (10 : Nat) ≠ 11 := by decide

/-- Claim C6, counterexample: a waypoint with the sentinel 500.0 as altitude
(latitude 10, longitude 10) is appended to the buffer, and so is a waypoint
with latitude exactly 91, which lies outside the open interval (-91, 91). -/
theorem C6_counterexample :
    startWayPointReceiverStep [] ⟨10, 10, 500⟩ = [⟨10, 10, 500⟩] ∧
    startWayPointReceiverStep [] ⟨91, 0, 0⟩ = [⟨91, 0, 0⟩] := by decide

/-- Claim C6 (amended): at waypoint ingest a waypoint is rejected exactly when
its latitude is greater than 91 or less than -91, or its longitude is greater
than 181 or less than -181 (boundary values accepted); the sentinel 500.0 is
caught only when it occurs in latitude or longitude, the altitude field is
never validated; every non-rejected waypoint is appended at the tail. -/
theorem C6_ingest_filter (buf : List gpsLatLonAlt) (wp : gpsLatLonAlt) :
    startWayPointReceiverStep buf wp =
      if wp.latitude > 91 ∨ wp.latitude < -91 ∨ wp.longitude > 181 ∨ wp.longitude < -181
      then buf else buf ++ [wp] := by
  unfold startWayPointReceiverStep pushWayPointNew
  split_ifs <;> tauto

/-- Claim C7, counterexample: a tick with two pending packets forwards the
oldest one and retains the newer, so older pending packets are delivered
late instead of being discarded in favour of the latest. -/
theorem C7_counterexample :
    PcmdPacketSchedulerTick [⟨0, [0], 0⟩, ⟨0, [1], 0⟩] =
      ([⟨0, [1], 0⟩], some ⟨0, [0], 0⟩) ∧
    (⟨0, [0], 0⟩ : networkUDPPacket) ≠ ⟨0, [1], 0⟩ := by decide

/-- Claim C7 (amended): the scheduler forwards at most one PCMD packet per
50 ms tick; pending packets are kept in FIFO order (a buffered channel of
capacity 100), a tick with an empty queue sends nothing, and a tick with a
non-empty queue forwards exactly the oldest pending packet. -/
theorem C7_scheduler_tick :
    (∀ q, (PcmdPacketSchedulerTick q).2.toList.length ≤ 1) ∧
    PcmdPacketSchedulerTick [] = ([], none) ∧
    (∀ p rest, PcmdPacketSchedulerTick (p :: rest) = (rest, some p)) := by
  refine ⟨fun q => ?_, rfl, fun p rest => rfl⟩
  cases q <;> simp [PcmdPacketSchedulerTick]

/-- Claim C8, counterexample: a JSON parse failure leaves the zero-valued
response, so Discover succeeds with c2d_port 0 instead of returning a parse
error, and a response with status 1 terminates the process via log.Fatal
instead of returning an error to the caller. -/
theorem C8_counterexample :
    DiscoverHandle none = .ok 0 ∧
    DiscoverHandle (some ⟨1, 54321, 51, 21, 0, 5004, 5005⟩) = .fatalExit ∧
    discoverOutcome.ok 0 ≠ .fatalExit := by decide

/-- Claim C8 (amended): after reading the discovery response, a parsed status
different from 0 terminates the whole process via log.Fatal; a JSON parse
failure is only logged and handling continues with the zero-valued response,
yielding success with c2d_port 0; a parsed response with status 0 yields
success with its c2d_port field. -/
theorem C8_discover :
    (∀ dd : discoverData, DiscoverHandle (some dd) =
      if dd.Status ≠ 0 then .fatalExit else .ok dd.C2dPort) ∧
    DiscoverHandle none = .ok 0 :=
  ⟨fun _ => rfl, rfl⟩

/-- Claim C9: the waypoint buffer is FIFO. pushWayPointNew appends at the
tail; pullWayPointNext on an empty buffer returns an error (io.EOF) leaving
the buffer untouched, and on a non-empty buffer returns the first-pushed
waypoint together with the remaining waypoints in their original order;
pushing a whole route onto an empty buffer stores it in push order. -/
theorem C9_fifo :
    (∀ (buf : List gpsLatLonAlt) wp, pushWayPointNew buf wp = buf ++ [wp]) ∧
    pullWayPointNext [] = .error () ∧
    (∀ v rest, pullWayPointNext (v :: rest) = .ok (v, rest)) ∧
    (∀ ws : List gpsLatLonAlt, ws.foldl pushWayPointNew [] = ws) := by
  refine ⟨fun buf wp => rfl, rfl, fun v rest => rfl, fun ws => ?_⟩
  simpa using foldl_pushWayPointNew ws []

/-- Helper: the sequence-number byte of an encodeCmd frame is the buffer 10
counter incremented once. -/
theorem encodeCmd_seq_byte (u : udpPacketCreator) (c : Command) (a : List Nat) :
    (encodeCmd u c a).2.data.get? 2 = some ((u.sequenceNR 10 + 1) % 256) := by
  simp [encodeCmd, bumpSeq]

/-- Helper: encodeCmd advances the buffer 10 counter by one, wrapping. -/
theorem encodeCmd_counter (u : udpPacketCreator) (c : Command) (a : List Nat) :
    (encodeCmd u c a).1.sequenceNR 10 = (u.sequenceNR 10 + 1) % 256 := by
  simp [encodeCmd, bumpSeq]

/-- Helper: the emitted encodeCmd sequence bytes form the arithmetic
progression starting one above the current buffer 10 counter. -/
theorem cmdSeqList_eq (c : Command) (a : List Nat) :
    ∀ (n : Nat) (u : udpPacketCreator), cmdSeqList u c a n =
      (List.range n).map fun i => some ((u.sequenceNR 10 + i + 1) % 256) := by
  intro n
  induction n with
  | zero => intro u; simp [cmdSeqList]
  | succ n ih =>
    intro u
    rw [cmdSeqList, ih, encodeCmd_seq_byte, encodeCmd_counter,
      List.range_succ_eq_map, List.map_cons, List.map_map]
    congr 1
    refine List.map_congr_left fun i _ => ?_
    simp only [Function.comp_apply]
    exact congrArg some (by omega)

/-- Helper: the sequence-number byte of an encodePong frame is the ping
buffer counter incremented once. -/
theorem encodePong_seq_byte (u : udpPacketCreator) (f : protocolARNetworkAL)
    (h : f.targetBufferID < 256) :
    (encodePong u f).2.data.get? 2 = some ((u.sequenceNR f.targetBufferID + 1) % 256) := by
  simp [encodePong, bumpSeq, Nat.mod_eq_of_lt h]

/-- Helper: encodePong advances the ping buffer counter by two, wrapping. -/
theorem encodePong_counter (u : udpPacketCreator) (f : protocolARNetworkAL)
    (h : f.targetBufferID < 256) :
    (encodePong u f).1.sequenceNR f.targetBufferID =
      (u.sequenceNR f.targetBufferID + 2) % 256 := by
  simp [encodePong, bumpSeq, Nat.mod_eq_of_lt h]

/-- Helper: the emitted encodePong sequence bytes step by two. -/
theorem pongSeqList_eq (f : protocolARNetworkAL) (h : f.targetBufferID < 256) :
    ∀ (n : Nat) (u : udpPacketCreator), pongSeqList u f n =
      (List.range n).map fun i =>
        some ((u.sequenceNR f.targetBufferID + 2 * i + 1) % 256) := by
  intro n
  induction n with
  | zero => intro u; simp [pongSeqList]
  | succ n ih =>
    intro u
    rw [pongSeqList, ih, encodePong_seq_byte u f h, encodePong_counter u f h,
      List.range_succ_eq_map, List.map_cons, List.map_map]
    congr 1
    refine List.map_congr_left fun i _ => ?_
    simp only [Function.comp_apply]
    exact congrArg some (by omega)

/-- Claim C3, counterexample: on a fresh udpPacketCreator, whose buffer 10
counter is 0, the first encodeCmd emits sequence-number byte 1, not the
current counter value 0: the counter is incremented before being written
into the frame. -/
theorem C3_counterexample :
    newUdpPacketCreator.sequenceNR 10 = 0 ∧
    (encodeCmd newUdpPacketCreator ⟨1, 0, 1⟩ []).2.data.get? 2 = some 1 ∧
    (1 : Nat) ≠ 0 := by decide

/-- Claim C3 (amended): every encodeCmd increments the buffer 10 counter by
one and then emits the new value, so N successive encodeCmd operations emit
c+1, c+2, ..., c+N mod 256 from starting counter c (1, ..., N on a fresh
creator); encodePong emits the once-incremented counter but advances it by
two per operation, so N pongs emit c+1, c+3, ..., c+2N-1 mod 256; and
encodeAck does not emit its counter at all, its sequence-number field is the
incoming sequence number. -/
theorem C3_sequencer :
    (∀ (u : udpPacketCreator) (c : Command) (a : List Nat),
      (encodeCmd u c a).2.data.get? 2 = some ((u.sequenceNR 10 + 1) % 256) ∧
      (encodeCmd u c a).1.sequenceNR 10 = (u.sequenceNR 10 + 1) % 256) ∧
    (∀ (u : udpPacketCreator) (c : Command) (a : List Nat) (n : Nat),
      cmdSeqList u c a n =
        (List.range n).map fun i => some ((u.sequenceNR 10 + i + 1) % 256)) ∧
    (∀ (u : udpPacketCreator) (f : protocolARNetworkAL) (n : Nat),
      f.targetBufferID < 256 → pongSeqList u f n =
        (List.range n).map fun i =>
          some ((u.sequenceNR f.targetBufferID + 2 * i + 1) % 256)) ∧
    (∀ (u : udpPacketCreator) (tb s : Nat),
      (encodeAck u tb s).2.data.get? 2 = some s) := by
  refine ⟨fun u c a => ⟨encodeCmd_seq_byte u c a, encodeCmd_counter u c a⟩,
    fun u c a n => cmdSeqList_eq c a n u,
    fun u f n h => pongSeqList_eq f h n u,
    fun u tb s => ?_⟩
  simp [encodeAck]

/-- Claim C3 witness: the pong clause of the sequencer theorem applied to a
concrete ping frame on buffer 0 and a fresh creator: three pongs emit the
sequence bytes 1, 3, 5. -/
theorem C3_sequencer_witness :
    (2 : Nat) < 256 ∧ (123 : Nat) < 256 ∧
    pongSeqList newUdpPacketCreator ⟨2, 0, 123, 9, [170, 187]⟩ 3 =
      [some 1, some 3, some 5] :=
  ⟨by decide, by decide,
    (C3_sequencer.2.2.1 newUdpPacketCreator ⟨2, 0, 123, 9, [170, 187]⟩ 3
      (by decide)).trans (by decide)⟩

/-- Claim C10: each packet-creation operation changes the counter of exactly
the buffer it emits on and nothing else: encodeCmd mutates only buffer 10,
encodeAck only buffer (128 + acked buffer) mod 256, encodePong only the ping
buffer itself; in each case the emitted frame's buffer byte is that same
buffer, and all other counters are unchanged. -/
theorem C10_single_buffer :
    (∀ (u : udpPacketCreator) (c : Command) (a : List Nat) (b : Nat), b ≠ 10 →
      (encodeCmd u c a).1.sequenceNR b = u.sequenceNR b) ∧
    (∀ (u : udpPacketCreator) (c : Command) (a : List Nat),
      (encodeCmd u c a).2.data.get? 1 = some 10) ∧
    (∀ (u : udpPacketCreator) (tb s b : Nat), b ≠ (tb + 128) % 256 →
      (encodeAck u tb s).1.sequenceNR b = u.sequenceNR b) ∧
    (∀ (u : udpPacketCreator) (tb s : Nat),
      (encodeAck u tb s).2.data.get? 1 = some ((tb + 128) % 256)) ∧
    (∀ (u : udpPacketCreator) (f : protocolARNetworkAL) (b : Nat),
      f.targetBufferID < 256 → b ≠ f.targetBufferID →
      (encodePong u f).1.sequenceNR b = u.sequenceNR b) ∧
    (∀ (u : udpPacketCreator) (f : protocolARNetworkAL), f.targetBufferID < 256 →
      (encodePong u f).2.data.get? 1 = some f.targetBufferID) := by
  refine ⟨fun u c a b hb => ?_, fun u c a => by simp [encodeCmd],
    fun u tb s b hb => ?_, fun u tb s => by simp [encodeAck],
    fun u f b h hb => ?_, fun u f h => by simp [encodePong, Nat.mod_eq_of_lt h]⟩
  · simp [encodeCmd, bumpSeq, hb]
  · simp [encodeAck, bumpSeq, hb]
  · simp [encodePong, bumpSeq, Nat.mod_eq_of_lt h, hb]

/-- Claim C10 witness: the frame-effect theorem applied at concrete inputs:
an encodeCmd call leaves buffer 5 untouched, an encodeAck for buffer 11
leaves buffer 12 untouched, and a pong on buffer 0 leaves buffer 10
untouched, a fresh creator reading 0 everywhere. -/
theorem C10_single_buffer_witness :
    ((5 : Nat) ≠ 10 ∧
      (encodeCmd newUdpPacketCreator ⟨1, 0, 1⟩ []).1.sequenceNR 5 =
        newUdpPacketCreator.sequenceNR 5) ∧
    ((12 : Nat) ≠ (11 + 128) % 256 ∧
      (encodeAck newUdpPacketCreator 11 66).1.sequenceNR 12 =
        newUdpPacketCreator.sequenceNR 12) ∧
    ((0 : Nat) < 256 ∧ (10 : Nat) ≠ 0 ∧
      (encodePong newUdpPacketCreator ⟨2, 0, 123, 9, [170, 187]⟩).1.sequenceNR 10 =
        newUdpPacketCreator.sequenceNR 10) :=
  ⟨⟨by decide, C10_single_buffer.1 newUdpPacketCreator ⟨1, 0, 1⟩ [] 5 (by decide)⟩,
    ⟨by decide, C10_single_buffer.2.2.1 newUdpPacketCreator 11 66 12 (by decide)⟩,
    ⟨by decide, by decide,
      C10_single_buffer.2.2.2.2.1 newUdpPacketCreator ⟨2, 0, 123, 9, [170, 187]⟩ 10
        (by decide) (by decide)⟩⟩

end Parrotbebop
